import Mathlib

/-!
Shallow embedding of `src/main.py` (the Telecom Hire FastAPI backend):
the `Submission` pydantic model (the Validator), the `/health`, `/debug`
and `/submit` route handlers, and a model of the MongoDB collection they
talk to (a list of stored documents plus a fresh-identifier counter;
`insert_one` assigns the counter as the new `_id`, which is what the
real store's unique `_id` generation guarantees).

Conventions:
- Environment variables are strings; an absent variable is the empty
  string (`os.getenv(name, "")`).
- Python truthiness of an `Optional[str]` (`if data.email_alt`) is
  `none` or the empty string being falsy.
- A raw JSON payload field is `Option String`: `none` is JSON null or a
  missing required field; for the optional fields with default `""`
  (`email_alt`, `farm_tocli_number`, `jbth_certificate_number`) an
  absent key is modelled as `some ""`, which is the value pydantic
  assigns via the default.
- The server clock (`datetime.utcnow().isoformat()`) is passed in as a
  `now : String` parameter; the awaited Mongo ping in `/health` is
  passed in as a `ProbeOutcome`.
-/

namespace FormBackend

/-- Split a character list at every occurrence of `c` (the pieces, with
the separators dropped), as `str.split(c)` does. -/
def splitOnChar (c : Char) : List Char → List (List Char)
  | [] => [[]]
  | x :: xs =>
      let r := splitOnChar c xs
      if x == c then [] :: r
      else
        match r with
        | [] => [[x]]
        | y :: ys => (x :: y) :: ys

/-- Python's `str.lower()` applied to an (ASCII) string, as used for
email normalization. -/
def lowerStr (s : String) : String :=
  ⟨s.data.map Char.toLower⟩

/-- Modelled from the spec: "valid email syntax" as checked by pydantic's
`EmailStr` (the `email-validator` implementation is an external library,
not part of this repository). Simplified to: exactly one `@` separating a
nonempty local part from a nonempty domain that contains a dot and has no
empty dot-separated label. -/
def isEmail (s : String) : Bool :=
  match splitOnChar '@' s.data with
  | [l, d] =>
      !l.isEmpty && !d.isEmpty && d.contains '.' &&
        (splitOnChar '.' d).all (fun lbl => !lbl.isEmpty)
  | _ => false

/-- The fully validated `Submission` pydantic model (`src/main.py:33-47`).
`email_alt`, `farm_tocli_number` and `jbth_certificate_number` are
`Optional[str] = ""`; the rest are required strings. -/
structure Submission where
  email_primary : String
  email_alt : Option String
  circle : String
  state : String
  district : String
  name : String
  contact_number : String
  pin_code : String
  designation : String
  activity : String
  work_at_height_certificate : String
  ppes : String
  farm_tocli_number : Option String
  jbth_certificate_number : Option String
  deriving Repr, DecidableEq

/-- A raw `/submit` request body before pydantic validation. `submitted_at`
is an extra key a client may send; the `Submission` model has no such
field, so pydantic drops it. -/
structure RawPayload where
  email_primary : Option String
  email_alt : Option String := some ""
  circle : Option String
  state : Option String
  district : Option String
  name : Option String
  contact_number : Option String
  pin_code : Option String
  designation : Option String
  activity : Option String
  work_at_height_certificate : Option String
  ppes : Option String
  farm_tocli_number : Option String := some ""
  jbth_certificate_number : Option String := some ""
  submitted_at : Option String := none
  deriving Repr, DecidableEq

/-- A required `str` field with a `min_length` bound
(`Field(..., min_length=n)`). -/
def requireMin (fieldName : String) (v : Option String) (minLen : Nat) :
    Except String String :=
  match v with
  | none => .error (fieldName ++ ": field required")
  | some s =>
      if s.length < minLen then
        .error (fieldName ++ ": string is too short")
      else .ok s

/-- A required `str` field with `pattern=r"^\d{6}$"`. -/
def requirePin (fieldName : String) (v : Option String) :
    Except String String :=
  match v with
  | none => .error (fieldName ++ ": field required")
  | some s =>
      if s.length == 6 && s.data.all Char.isDigit then .ok s
      else .error (fieldName ++ ": string does not match pattern")

/-- A required `str` field with `pattern=r"^(YES|NO)$"`. -/
def requireYesNo (fieldName : String) (v : Option String) :
    Except String String :=
  match v with
  | none => .error (fieldName ++ ": field required")
  | some s =>
      if s == "YES" || s == "NO" then .ok s
      else .error (fieldName ++ ": string does not match pattern")

/-- The required `EmailStr` field. -/
def requireEmail (fieldName : String) (v : Option String) :
    Except String String :=
  match v with
  | none => .error (fieldName ++ ": field required")
  | some s =>
      if isEmail s then .ok s
      else .error (fieldName ++ ": value is not a valid email address")

/-- Pydantic validation of a raw payload against the `Submission` model
(`src/main.py:33-47`): produce a typed `Submission` or a field-level
error. `email_alt`, `farm_tocli_number` and `jbth_certificate_number`
are plain `Optional[str]` with no constraint; the extra `submitted_at`
key is dropped. -/
def validate (raw : RawPayload) : Except String Submission := do
  let ep ← requireEmail "email_primary" raw.email_primary
  let circle ← requireMin "circle" raw.circle 1
  let state ← requireMin "state" raw.state 1
  let district ← requireMin "district" raw.district 1
  let nm ← requireMin "name" raw.name 2
  let contact ← requireMin "contact_number" raw.contact_number 7
  let pin ← requirePin "pin_code" raw.pin_code
  let desig ← requireMin "designation" raw.designation 1
  let act ← requireMin "activity" raw.activity 1
  let wah ← requireYesNo "work_at_height_certificate" raw.work_at_height_certificate
  let pp ← requireYesNo "ppes" raw.ppes
  return {
    email_primary := ep
    email_alt := raw.email_alt
    circle := circle
    state := state
    district := district
    name := nm
    contact_number := contact
    pin_code := pin
    designation := desig
    activity := act
    work_at_height_certificate := wah
    ppes := pp
    farm_tocli_number := raw.farm_tocli_number
    jbth_certificate_number := raw.jbth_certificate_number
  }

/-- `data.email_alt.lower() if data.email_alt else None`
(`src/main.py:115`): `None` and `""` are falsy. -/
def emailAltLower (alt : Option String) : Option String :=
  match alt with
  | none => none
  | some s => if s.data.isEmpty then none else some (lowerStr s)

/-- One document of the backing collection: the dumped `Submission`
fields plus the keys `submit` adds (`email_primary_lower`,
`email_alt_lower`, `submittedAt`) and the store-assigned `_id`. -/
structure StoredDoc where
  id : Nat
  data : Submission
  email_primary_lower : String
  email_alt_lower : Option String
  submittedAt : String
  deriving Repr, DecidableEq

/-- The backing MongoDB collection: stored documents in insertion order,
plus the counter from which `insert_one` draws the next `_id`. -/
structure Collection where
  docs : List StoredDoc
  nextId : Nat
  deriving Repr, DecidableEq

/-- One `{field: value}` clause of the duplicate pre-check's `$or` query. -/
inductive EmailClause where
  | primary (v : String)
  | alt (v : String)
  deriving Repr, DecidableEq

/-- Whether a stored document matches one `$or` clause. A
`{"email_alt_lower": v}` clause compares against the stored value, so a
document whose `email_alt_lower` is null never matches it. -/
def clauseMatches (d : StoredDoc) : EmailClause → Bool
  | .primary v => d.email_primary_lower == v
  | .alt v => d.email_alt_lower == some v

/-- The `or_clauses` list built at `src/main.py:118-120`. -/
def orClauses (e1 : String) (e2 : Option String) : List EmailClause :=
  [.primary e1, .alt e1] ++
    (match e2 with
     | some e => [.primary e, .alt e]
     | none => [])

/-- `collection.find_one({"$or": or_clauses})`. -/
def findOne (c : Collection) (clauses : List EmailClause) : Option StoredDoc :=
  c.docs.find? (fun d => clauses.any (clauseMatches d))

/-- Result of `collection.insert_one`. -/
inductive InsertResult where
  | inserted (id : Nat) (c : Collection)
  | duplicateKey
  deriving Repr, DecidableEq

/-- `collection.insert_one(doc)`: the startup hook created a unique
(sparse) index on `email_primary_lower` (`src/main.py:59-64`), so the
insert raises `DuplicateKeyError` when a stored document already carries
the same `email_primary_lower`; otherwise the document is appended with
a fresh `_id`. -/
def insertOne (c : Collection) (d : Submission) (e1 : String)
    (e2 : Option String) (now : String) : InsertResult :=
  if c.docs.any (fun x => x.email_primary_lower == e1) then
    .duplicateKey
  else
    .inserted c.nextId
      { docs := c.docs ++
          [{ id := c.nextId, data := d, email_primary_lower := e1,
             email_alt_lower := e2, submittedAt := now }],
        nextId := c.nextId + 1 }

/-- Outcome of a `/submit` request: the JSON `{"ok": True, "id": str(id)}`
acknowledgment, or an `HTTPException(status_code, detail)`. -/
inductive SubmitResult where
  | ok (id : Nat)
  | error (status : Nat) (detail : String)
  deriving Repr, DecidableEq

/-- The `/submit` handler body (`src/main.py:110-136`), acting on an
already validated `Submission`. Returns the response together with the
resulting collection state. `e1 = data.email_primary.lower()` and
`e2 = data.email_alt.lower() if data.email_alt else None` are written
inline as `lowerStr data.email_primary` and
`emailAltLower data.email_alt`. -/
def submit (coll : Option Collection) (now : String) (data : Submission) :
    SubmitResult × Option Collection :=
  match coll with
  | none => (.error 500 "MongoDB connection is not fully configured.", none)
  | some c =>
      match findOne c (orClauses (lowerStr data.email_primary)
          (emailAltLower data.email_alt)) with
      | some _ =>
          (.error 409 "Duplicate submission detected for this email.", some c)
      | none =>
          match insertOne c data (lowerStr data.email_primary)
              (emailAltLower data.email_alt) now with
          | .inserted id c2 => (.ok id, some c2)
          | .duplicateKey =>
              (.error 409 "Duplicate submission detected for this email.",
               some c)

/-- The full `/submit` endpoint: FastAPI runs pydantic validation first
(422 on failure) and only then calls the handler. -/
def submitEndpoint (coll : Option Collection) (now : String)
    (raw : RawPayload) : SubmitResult × Option Collection :=
  match validate raw with
  | .error e => (.error 422 e, coll)
  | .ok data => submit coll now data

/-- The projection `{"_id": False, "email_primary": True, "submittedAt":
True}` applied to a stored document (`src/main.py:104`): the returned
JSON object holds exactly the included keys (both always present on a
stored document) and, `_id` being excluded, no identifier. Modelled as
the key/value list of the returned object. -/
def projectDoc (d : StoredDoc) : List (String × String) :=
  [("email_primary", d.data.email_primary), ("submittedAt", d.submittedAt)]

/-- Lexicographic `<` on character lists, the order the store uses to
compare the string values of `submittedAt` (ISO-8601 timestamps compare
chronologically under it). -/
def charsLt : List Char → List Char → Bool
  | [], [] => false
  | [], _ :: _ => true
  | _ :: _, [] => false
  | x :: xs, y :: ys =>
      if x < y then true else if y < x then false else charsLt xs ys

/-- Insert one document into a list kept in descending `submittedAt`
order. -/
def insertDesc (d : StoredDoc) : List StoredDoc → List StoredDoc
  | [] => [d]
  | x :: xs =>
      if charsLt x.submittedAt.data d.submittedAt.data then d :: x :: xs
      else x :: insertDesc d xs

/-- `.sort("submittedAt", -1)`: the cursor's documents in descending
`submittedAt` order. -/
def sortBySubmittedAtDesc : List StoredDoc → List StoredDoc
  | [] => []
  | x :: xs => insertDesc x (sortBySubmittedAtDesc xs)

/-- Outcome of a `/debug` request: `{"count": total, "recent": [...]}`
or an `HTTPException`. -/
inductive DebugResult where
  | ok (count : Nat) (recent : List (List (String × String)))
  | error (status : Nat) (detail : String)
  deriving Repr, DecidableEq

/-- The `/debug` handler (`src/main.py:99-108`): 503 when the collection
was never initialized; otherwise the projected documents sorted by
`submittedAt` descending, limited to 5, plus `count_documents({})`. -/
def debug (coll : Option Collection) : DebugResult :=
  match coll with
  | none => .error 503 "DB not initialized"
  | some c =>
      .ok c.docs.length
        (((sortBySubmittedAtDesc c.docs).take 5).map projectDoc)

/-- The configuration environment: `os.getenv(name, "")`, so an absent
variable is the empty string (`src/main.py:14-16`). -/
structure Config where
  MONGO_URI : String
  MONGO_DB : String
  MONGO_COLLECTION : String
  deriving Repr, DecidableEq

/-- Outcome of the awaited `await c.admin.command("ping")` connectivity
probe: it either succeeds or raises an exception carrying a message. -/
inductive ProbeOutcome where
  | success
  | failure (msg : String)
  deriving Repr, DecidableEq

/-- The `/health` handler (`src/main.py:87-97`) as the key/value list of
the returned JSON object. Only `MONGO_URI` and `MONGO_DB` are tested for
presence; the `try`/`except Exception` turns any probe failure into a
`{"status": "error", "mongo": str(e)}` response instead of a propagated
exception. -/
def health (cfg : Config) (probe : ProbeOutcome) : List (String × String) :=
  if cfg.MONGO_URI.isEmpty || cfg.MONGO_DB.isEmpty then
    [("status", "ok"), ("mongo", "not-configured")]
  else
    match probe with
    | .success => [("status", "ok"), ("mongo", "connected")]
    | .failure e => [("status", "error"), ("mongo", e)]

/-- The startup hook's effect on the module-level `collection` handle
(`src/main.py:49-56`): it stays `None` unless all three of `MONGO_URI`,
`MONGO_DB` and `MONGO_COLLECTION` are non-empty, in which case it is the
handle `store` to the backing collection. -/
def on_startup (cfg : Config) (store : Collection) : Option Collection :=
  if cfg.MONGO_URI.isEmpty || cfg.MONGO_DB.isEmpty ||
      cfg.MONGO_COLLECTION.isEmpty then
    none
  else some store

/-- First element of a JSON object (as key/value list) under a key. -/
def lookupKey (obj : List (String × String)) (k : String) : Option String :=
  match obj.find? (fun p => p.fst == k) with
  | some p => some p.snd
  | none => none

/-! ### Concrete example data used by witnesses -/

/-- A well-formed `/submit` request body (all of §3's constraints hold). -/
def exampleRaw : RawPayload := {
  email_primary := some "joe@example.com"
  email_alt := some ""
  circle := some "North"
  state := some "Karnataka"
  district := some "Bengaluru"
  name := some "Joe Doe"
  contact_number := some "9876543210"
  pin_code := some "560001"
  designation := some "Technician"
  activity := some "Rigging"
  work_at_height_certificate := some "YES"
  ppes := some "NO"
}

/-- The collection right after startup, before any submission. -/
def emptyColl : Collection := { docs := [], nextId := 0 }

/-! ### Spec-side definitions for the refinement-style claims -/

/-- A required field holding a non-empty string. -/
def nonEmptyOpt (v : Option String) : Bool :=
  match v with
  | some s => 1 ≤ s.length
  | none => false

/-- §3's field table, stated from the spec's words (strict variant for
`pin_code` and the certificate/PPE fields, which is the variant the code
under `src/` implements): each required field present with its length or
pattern constraint, `email_primary` (and a present non-empty `email_alt`)
with valid email syntax, `contact_number` of length 7-20. An absent
optional field is its default `some ""`. -/
def spec3Valid (raw : RawPayload) : Bool :=
  (match raw.email_primary with | some s => isEmail s | none => false) &&
  (match raw.email_alt with
   | none => true
   | some s => s.data.isEmpty || isEmail s) &&
  nonEmptyOpt raw.circle &&
  nonEmptyOpt raw.state &&
  nonEmptyOpt raw.district &&
  (match raw.name with | some s => 2 ≤ s.length | none => false) &&
  (match raw.contact_number with
   | some s => 7 ≤ s.length && s.length ≤ 20
   | none => false) &&
  (match raw.pin_code with
   | some s => s.length == 6 && s.data.all Char.isDigit
   | none => false) &&
  nonEmptyOpt raw.designation &&
  nonEmptyOpt raw.activity &&
  (match raw.work_at_height_certificate with
   | some s => s == "YES" || s == "NO"
   | none => false) &&
  (match raw.ppes with | some s => s == "YES" || s == "NO" | none => false)

/-- The candidate's normalized emails, in the spec's sense: the
lowercased primary email, plus the lowercased alternate email when one
is present and non-empty. -/
def candidateEmailsLower (raw : RawPayload) : List String :=
  (match raw.email_primary with | some s => [lowerStr s] | none => []) ++
    (match raw.email_alt with
     | some s => if s.data.isEmpty then [] else [lowerStr s]
     | none => [])

/-- Whether a candidate payload's normalized emails collide with a
stored record's normalized primary or alternate email, in the spec's
sense. -/
def collidesWith (raw : RawPayload) (d : StoredDoc) : Bool :=
  (candidateEmailsLower raw).any
    (fun e => d.email_primary_lower == e || d.email_alt_lower == some e)

/-- The validated form of `exampleRaw`. -/
def exampleSub : Submission := {
  email_primary := "joe@example.com"
  email_alt := some ""
  circle := "North"
  state := "Karnataka"
  district := "Bengaluru"
  name := "Joe Doe"
  contact_number := "9876543210"
  pin_code := "560001"
  designation := "Technician"
  activity := "Rigging"
  work_at_height_certificate := "YES"
  ppes := "NO"
  farm_tocli_number := some ""
  jbth_certificate_number := some ""
}

/-- `exampleRaw` with a 21-character `contact_number`. -/
def overlongContactRaw : RawPayload :=
  { exampleRaw with contact_number := some "123456789012345678901" }

/-- `exampleRaw` with a `contact_number` shorter than 7 characters. -/
def shortContactRaw : RawPayload :=
  { exampleRaw with contact_number := some "123" }

/-- `exampleRaw` with a syntactically invalid `email_alt`. -/
def badAltRaw : RawPayload :=
  { exampleRaw with email_alt := some "not-an-email" }

/-- A stored record whose normalized primary email is `"a@x.com"`. -/
def dupStoredDoc : StoredDoc := {
  id := 0
  data := { exampleSub with email_primary := "a@x.com" }
  email_primary_lower := "a@x.com"
  email_alt_lower := none
  submittedAt := "2024-01-01T00:00:00"
}

/-- A collection holding just `dupStoredDoc`. -/
def dupColl : Collection := { docs := [dupStoredDoc], nextId := 1 }

/-- A stored document with identifier `i`, used to populate a collection
for the `/debug` examples. -/
def debugDoc (i : Nat) : StoredDoc :=
  { id := i, data := exampleSub, email_primary_lower := "joe@example.com",
    email_alt_lower := none, submittedAt := "2024-01-01T00:00:00" }

/-- A collection holding six stored documents. -/
def manyColl : Collection :=
  { docs := [debugDoc 0, debugDoc 1, debugDoc 2, debugDoc 3, debugDoc 4,
             debugDoc 5], nextId := 6 }

/-- The collection state after accepting `exampleRaw` on the empty
collection. -/
def insertedColl : Collection :=
  { docs := [{ id := 0, data := exampleSub,
               email_primary_lower := "joe@example.com",
               email_alt_lower := none,
               submittedAt := "2024-05-01T10:00:00" }],
    nextId := 1 }

/-!
## Theorems

One theorem per claim of the specification review, with shared helper
lemmas first.
-/

/-- If some stored document matches a clause of the query, `find_one`
returns a document. -/
lemma findOne_isSome_of_matches (c : Collection) (cls : List EmailClause)
    (d : StoredDoc) (hd : d ∈ c.docs) (cl : EmailClause) (hcl : cl ∈ cls)
    (hm : clauseMatches d cl = true) : (findOne c cls).isSome = true := by
  unfold findOne
  cases hf : c.docs.find? (fun x => cls.any (clauseMatches x)) with
  | some _ => rfl
  | none =>
      rw [List.find?_eq_none] at hf
      exact absurd (List.any_eq_true.mpr ⟨cl, hcl, hm⟩) (by simpa using hf d hd)

/-- C2: a `/submit` request that returns an error outcome (validation
error, duplicate conflict, or server error) stores nothing: the
collection afterwards is exactly the collection before. -/
theorem submit_error_leaves_store_unchanged
    (coll : Option Collection) (now : String) (raw : RawPayload)
    (status : Nat) (detail : String) (coll2 : Option Collection)
    (h : submitEndpoint coll now raw = (.error status detail, coll2)) :
    coll2 = coll := by
  unfold submitEndpoint at h
  split at h
  · simp only [Prod.mk.injEq] at h
    exact h.2.symm
  · unfold submit at h
    split at h
    · simp only [Prod.mk.injEq] at h
      exact h.2.symm
    · split at h
      · simp only [Prod.mk.injEq] at h
        exact h.2.symm
      · split at h
        · simp only [Prod.mk.injEq] at h
          exact absurd h.1 (by simp)
        · simp only [Prod.mk.injEq] at h
          exact h.2.symm

/-- C2 witness: a payload missing `district` yields a 422 validation
error and the collection afterwards is the collection before. -/
theorem submit_error_leaves_store_unchanged_witness :
    submitEndpoint (some emptyColl) "2024-01-01T00:00:00"
        { exampleRaw with district := none } =
      (.error 422 "district: field required", some emptyColl)
    ∧ some emptyColl = some emptyColl :=
  ⟨by rfl,
   submit_error_leaves_store_unchanged (some emptyColl) "2024-01-01T00:00:00"
     { exampleRaw with district := none } 422 "district: field required"
     (some emptyColl) (by rfl)⟩

/-- C1: whenever a stored record's normalized primary or alternate email
equals the new payload's lowercased primary email, or its lowercased
alternate email when one is present and non-empty, `/submit` answers 409
and leaves the collection untouched (the insert is never attempted); and
in particular submitting `"a@x.com"` and then `"A@X.COM"` as
`email_primary` yields success then a conflict. -/
theorem submit_rejects_colliding_email :
    (∀ (c : Collection) (now : String) (data : Submission) (d : StoredDoc),
       d ∈ c.docs →
       (lowerStr data.email_primary = d.email_primary_lower ∨
        d.email_alt_lower = some (lowerStr data.email_primary) ∨
        (∃ s, data.email_alt = some s ∧ s.data ≠ [] ∧
          (lowerStr s = d.email_primary_lower ∨
           d.email_alt_lower = some (lowerStr s)))) →
       submit (some c) now data =
         (.error 409 "Duplicate submission detected for this email.", some c))
    ∧ (∀ now now' : String, ∃ c1 : Collection,
        submitEndpoint (some emptyColl) now
            { exampleRaw with email_primary := some "a@x.com" } =
          (.ok 0, some c1) ∧
        (submitEndpoint (some c1) now'
            { exampleRaw with email_primary := some "A@X.COM" }).fst =
          .error 409 "Duplicate submission detected for this email.") := by
  constructor
  · intro c now data d hd hmatch
    have hsome : (findOne c (orClauses (lowerStr data.email_primary)
        (emailAltLower data.email_alt))).isSome = true := by
      rcases hmatch with h1 | h2 | ⟨s, hs, hne, h3 | h4⟩
      · exact findOne_isSome_of_matches c _ d hd
          (.primary (lowerStr data.email_primary)) (by simp [orClauses])
          (by simp [clauseMatches, h1])
      · exact findOne_isSome_of_matches c _ d hd
          (.alt (lowerStr data.email_primary)) (by simp [orClauses])
          (by simp [clauseMatches, h2])
      · have he2 : emailAltLower data.email_alt = some (lowerStr s) := by
          simp [emailAltLower, hs, hne]
        exact findOne_isSome_of_matches c _ d hd
          (.primary (lowerStr s)) (by simp [orClauses, he2])
          (by simp [clauseMatches, h3])
      · have he2 : emailAltLower data.email_alt = some (lowerStr s) := by
          simp [emailAltLower, hs, hne]
        exact findOne_isSome_of_matches c _ d hd
          (.alt (lowerStr s)) (by simp [orClauses, he2])
          (by simp [clauseMatches, h4])
    cases hf : findOne c (orClauses (lowerStr data.email_primary)
        (emailAltLower data.email_alt)) with
    | none => rw [hf] at hsome; exact absurd hsome (by simp)
    | some x => simp only [submit, hf]
  · intro now now'
    exact ⟨_, rfl, rfl⟩

/-- C1 witness: against a collection storing `"a@x.com"`, a payload with
`email_primary` `"A@X.COM"` is rejected with a conflict. -/
theorem submit_rejects_colliding_email_witness :
    dupStoredDoc ∈ dupColl.docs
    ∧ lowerStr "A@X.COM" = dupStoredDoc.email_primary_lower
    ∧ submit (some dupColl) "2024-01-02T00:00:00"
        { exampleSub with email_primary := "A@X.COM" } =
      (.error 409 "Duplicate submission detected for this email.",
       some dupColl) :=
  ⟨by simp [dupColl], by decide,
   submit_rejects_colliding_email.1 dupColl "2024-01-02T00:00:00"
     { exampleSub with email_primary := "A@X.COM" } dupStoredDoc
     (by simp [dupColl]) (Or.inl (by decide))⟩

/-- C3: the stored submission timestamp is the server clock at the
moment of acceptance: (1) a client-supplied `submitted_at` value never
influences the outcome of `/submit` (pydantic drops the unknown key);
(2) an accepted submission appends exactly one document and its
`submittedAt` is the server's `now`. -/
theorem submitted_at_is_server_time :
    (∀ (coll : Option Collection) (now : String) (raw : RawPayload)
        (v : Option String),
       submitEndpoint coll now { raw with submitted_at := v } =
         submitEndpoint coll now raw)
    ∧ (∀ (c : Collection) (now : String) (raw : RawPayload) (id : Nat)
        (c2 : Collection),
       submitEndpoint (some c) now raw = (.ok id, some c2) →
       c2.docs.map StoredDoc.submittedAt =
         c.docs.map StoredDoc.submittedAt ++ [now]) := by
  constructor
  · intro coll now raw v
    cases raw
    rfl
  · intro c now raw id c2 h
    unfold submitEndpoint at h
    split at h
    · exact absurd h (by simp)
    · unfold submit at h
      split at h
      · exact absurd h (by simp)
      · rename_i c' hcc
        injection hcc with hcc
        subst hcc
        split at h
        · exact absurd h (by simp)
        · split at h
          · rename_i hins
            unfold insertOne at hins
            split at hins
            · exact absurd hins (by simp)
            · injection hins with _ hc2
              simp only [Prod.mk.injEq, SubmitResult.ok.injEq,
                Option.some.injEq] at h
              rw [← h.2, ← hc2]
              simp
          · exact absurd h (by simp)

/-- The decimal rendering of a natural number (as `str(...)` of the
inserted id) is never the empty string. -/
lemma nat_repr_length_pos (n : Nat) : 0 < (Nat.repr n).length := by
  have h : (Nat.repr n).length = (Nat.toDigits 10 n).length := rfl
  rw [h]
  by_cases hn : n / 10 = 0
  · simp [Nat.toDigits, Nat.toDigitsCore, hn]
  · simp only [Nat.toDigits, Nat.toDigitsCore, hn, if_false]
    rw [Nat.toDigitsCore_lens_eq]
    omega

/-- A payload meeting §3's constraints passes pydantic validation, and
validation preserves the primary and alternate email values. -/
lemma validate_ok_of_spec3 (raw : RawPayload) (h : spec3Valid raw = true) :
    ∃ data, validate raw = .ok data ∧
      raw.email_primary = some data.email_primary ∧
      data.email_alt = raw.email_alt := by
  obtain ⟨ep, alt, circ, st, dist, nm, cn, pc, des, act, wah, pp, ftn, jbn,
    sa⟩ := raw
  cases ep with
  | none => simp [spec3Valid] at h
  | some eps =>
  cases circ with
  | none => simp [spec3Valid, nonEmptyOpt] at h
  | some circs =>
  cases st with
  | none => simp [spec3Valid, nonEmptyOpt] at h
  | some sts =>
  cases dist with
  | none => simp [spec3Valid, nonEmptyOpt] at h
  | some dists =>
  cases nm with
  | none => simp [spec3Valid, nonEmptyOpt] at h
  | some nms =>
  cases cn with
  | none => simp [spec3Valid, nonEmptyOpt] at h
  | some cns =>
  cases pc with
  | none => simp [spec3Valid, nonEmptyOpt] at h
  | some pcs =>
  cases des with
  | none => simp [spec3Valid, nonEmptyOpt] at h
  | some dess =>
  cases act with
  | none => simp [spec3Valid, nonEmptyOpt] at h
  | some acts =>
  cases wah with
  | none => simp [spec3Valid, nonEmptyOpt] at h
  | some wahs =>
  cases pp with
  | none => simp [spec3Valid, nonEmptyOpt] at h
  | some pps =>
  simp only [spec3Valid, nonEmptyOpt, Bool.and_eq_true] at h
  obtain ⟨⟨⟨⟨⟨⟨⟨⟨⟨⟨⟨hep, halt⟩, hcirc⟩, hst⟩, hdist⟩, hnm⟩, hcn⟩,
    hpc⟩, hdes⟩, hact⟩, hwah⟩, hpp⟩ := h
  have hem : requireEmail "email_primary" (some eps) = .ok eps := by
    simp [requireEmail, hep]
  have hmin : ∀ (fn s : String) (k : Nat), (decide (k ≤ s.length)) = true →
      requireMin fn (some s) k = .ok s := by
    intro fn s k hk
    have := of_decide_eq_true hk
    simp [requireMin, Nat.not_lt.mpr this]
  have hcn7 : requireMin "contact_number" (some cns) 7 = .ok cns := by
    have h7 : (7 ≤ cns.length) := of_decide_eq_true hcn.1
    simp [requireMin, Nat.not_lt.mpr h7]
  have hpin : requirePin "pin_code" (some pcs) = .ok pcs := by
    simp [requirePin, hpc.1, hpc.2]
  have hw : requireYesNo "work_at_height_certificate" (some wahs) =
      .ok wahs := by
    simp [requireYesNo, hwah]
  have hp : requireYesNo "ppes" (some pps) = .ok pps := by
    simp [requireYesNo, hpp]
  refine ⟨⟨eps, alt, circs, sts, dists, nms, cns, pcs, dess, acts, wahs,
    pps, ftn, jbn⟩, ?_, rfl, rfl⟩
  simp only [validate, hem, hmin "circle" circs 1 hcirc,
    hmin "state" sts 1 hst, hmin "district" dists 1 hdist,
    hmin "name" nms 2 hnm, hcn7, hpin,
    hmin "designation" dess 1 hdes, hmin "activity" acts 1 hact, hw, hp]
  rfl

/-- A payload whose normalized emails collide with no field of a stored
document matches none of the duplicate pre-check's `$or` clauses for
that document. -/
lemma no_match_of_not_collides (raw : RawPayload) (p : String)
    (hp : raw.email_primary = some p) (d : StoredDoc)
    (h : collidesWith raw d = false) :
    (orClauses (lowerStr p) (emailAltLower raw.email_alt)).any
      (clauseMatches d) = false := by
  unfold collidesWith candidateEmailsLower at h
  rw [hp] at h
  cases halt : raw.email_alt with
  | none =>
      rw [halt] at h
      simp only [orClauses, emailAltLower, List.any_append, List.any_cons,
        List.any_nil, clauseMatches] at h ⊢
      simp_all
  | some s =>
      rw [halt] at h
      by_cases hse : s.data.isEmpty = true
      · simp only [orClauses, emailAltLower, hse, if_true, List.any_append,
          List.any_cons, List.any_nil, clauseMatches] at h ⊢
        simp_all
      · simp only [orClauses, emailAltLower, hse, if_false, List.any_append,
          List.any_cons, List.any_nil, clauseMatches] at h ⊢
        simp_all
        constructor
        · simpa [clauseMatches] using h.2.1
        · simpa [clauseMatches] using h.2.2

/-- C4: a payload meeting §3's field constraints whose normalized emails
collide with no stored record is accepted: `/submit` answers
`{ok, id}` where the id renders as a non-empty string and differs from
the id of every previously stored document (the collection keeps its
ids below `nextId`). -/
theorem submit_valid_payload_succeeds
    (c : Collection) (now : String) (raw : RawPayload)
    (hwf : ∀ d ∈ c.docs, d.id < c.nextId)
    (hvalid : spec3Valid raw = true)
    (hnocol : ∀ d ∈ c.docs, collidesWith raw d = false) :
    ∃ (id : Nat) (c2 : Collection),
      submitEndpoint (some c) now raw = (.ok id, some c2) ∧
      0 < (Nat.repr id).length ∧
      ∀ d ∈ c.docs, d.id ≠ id := by
  obtain ⟨data, hv, hp, hae⟩ := validate_ok_of_spec3 raw hvalid
  have hfind : findOne c (orClauses (lowerStr data.email_primary)
      (emailAltLower data.email_alt)) = none := by
    unfold findOne
    rw [List.find?_eq_none]
    intro d hd
    have hnm := no_match_of_not_collides raw data.email_primary hp d
      (hnocol d hd)
    rw [hae]
    simp [hnm]
  have hins : (c.docs.any fun x =>
      x.email_primary_lower == lowerStr data.email_primary) = false := by
    rw [List.any_eq_false]
    intro d hd
    have hnm := no_match_of_not_collides raw data.email_primary hp d
      (hnocol d hd)
    simp only [orClauses, List.any_append, List.any_cons, List.any_nil,
      clauseMatches, Bool.or_eq_false_iff] at hnm
    simpa using hnm.1.1
  refine ⟨c.nextId, ⟨c.docs ++ [⟨c.nextId, data,
    lowerStr data.email_primary, emailAltLower data.email_alt, now⟩],
    c.nextId + 1⟩, ?_, nat_repr_length_pos _, ?_⟩
  · simp only [submitEndpoint, hv, submit, hfind, insertOne, hins,
      Bool.false_eq_true, if_false]
  · intro d hd
    exact Nat.ne_of_lt (hwf d hd)

/-- C4 witness: the §3-conforming example payload is accepted against
the empty collection. -/
theorem submit_valid_payload_succeeds_witness :
    spec3Valid exampleRaw = true
    ∧ (∀ d ∈ emptyColl.docs, d.id < emptyColl.nextId)
    ∧ (∀ d ∈ emptyColl.docs, collidesWith exampleRaw d = false)
    ∧ (∃ (id : Nat) (c2 : Collection),
        submitEndpoint (some emptyColl) "2024-05-01T10:00:00" exampleRaw =
          (.ok id, some c2) ∧ 0 < (Nat.repr id).length ∧
        ∀ d ∈ emptyColl.docs, d.id ≠ id) :=
  ⟨by decide, by simp [emptyColl], by simp [emptyColl],
   submit_valid_payload_succeeds emptyColl "2024-05-01T10:00:00" exampleRaw
     (by simp [emptyColl]) (by decide) (by simp [emptyColl])⟩

/-- C3 witness: the accepted example submission stores `submittedAt`
equal to the server clock value. -/
theorem submitted_at_is_server_time_witness :
    submitEndpoint (some emptyColl) "2024-05-01T10:00:00" exampleRaw =
      (.ok 0, some
        { docs := [{ id := 0, data := exampleSub,
                     email_primary_lower := "joe@example.com",
                     email_alt_lower := none,
                     submittedAt := "2024-05-01T10:00:00" }],
          nextId := 1 })
    ∧ ({ docs := [{ id := 0, data := exampleSub,
                    email_primary_lower := "joe@example.com",
                    email_alt_lower := none,
                    submittedAt := "2024-05-01T10:00:00" }],
         nextId := 1 } : Collection).docs.map StoredDoc.submittedAt =
        emptyColl.docs.map StoredDoc.submittedAt ++ ["2024-05-01T10:00:00"] :=
  ⟨by rfl,
   submitted_at_is_server_time.2 emptyColl "2024-05-01T10:00:00" exampleRaw 0
     _ (by rfl)⟩

/-- `Except.isOk` holds exactly on successful results. -/
lemma except_isOk_iff {e a : Type} (x : Except e a) :
    x.isOk = true ↔ ∃ y, x = .ok y := by
  cases x <;> simp [Except.isOk, Except.toBool]

/-- Mapping over an `Except` succeeds exactly when the base does. -/
lemma map_ok_iff {e a b : Type} (f : a → b) (x : Except e a) (y : b) :
    (f <$> x) = .ok y ↔ ∃ z, x = .ok z ∧ f z = y := by
  cases x with
  | error err =>
      simp [show (f <$> (Except.error err : Except e a)) = Except.error err
        from rfl]
  | ok z =>
      simp [show (f <$> (Except.ok z : Except e a)) = Except.ok (f z)
        from rfl]

/-- A bound `Except` computation succeeds exactly when both steps do. -/
lemma bind_ok_iff {e a b : Type} (x : Except e a) (f : a → Except e b)
    (y : b) : (x >>= f) = .ok y ↔ ∃ z, x = .ok z ∧ f z = .ok y := by
  cases x with
  | error err =>
      simp [show (Except.error err : Except e a) >>= f = Except.error err
        from rfl]
  | ok z =>
      simp [show (Except.ok z : Except e a) >>= f = f z from rfl]

/-- Success characterization of a `min_length` field check. -/
lemma requireMin_ok_iff (fn : String) (v : Option String) (k : Nat)
    (s : String) : requireMin fn v k = .ok s ↔ v = some s ∧ k ≤ s.length := by
  cases v with
  | none => simp [requireMin]
  | some t =>
      by_cases h : t.length < k
      · simp [requireMin, h]
        intro he
        subst he
        omega
      · simp [requireMin, h]
        intro he
        subst he
        omega

/-- Success characterization of the `EmailStr` field check. -/
lemma requireEmail_ok_iff (fn : String) (v : Option String) (s : String) :
    requireEmail fn v = .ok s ↔ v = some s ∧ isEmail s = true := by
  cases v with
  | none => simp [requireEmail]
  | some t =>
      by_cases h : isEmail t = true
      · simp [requireEmail, h]
        intro he; subst he; exact h
      · simp [requireEmail, h]
        intro he; subst he; simp [h]

/-- Success characterization of the `pin_code` pattern check. -/
lemma requirePin_ok_iff (fn : String) (v : Option String) (s : String) :
    requirePin fn v = .ok s ↔
      v = some s ∧ (s.length == 6 && s.data.all Char.isDigit) = true := by
  cases v with
  | none => simp [requirePin]
  | some t =>
      by_cases h : (t.length == 6 && t.data.all Char.isDigit) = true
      · simp [requirePin, h]
        intro he; subst he; simpa using h
      · simp [requirePin, h]
        intro he; subst he; simpa using h

/-- Success characterization of the `YES`/`NO` pattern check. -/
lemma requireYesNo_ok_iff (fn : String) (v : Option String) (s : String) :
    requireYesNo fn v = .ok s ↔
      v = some s ∧ (s == "YES" || s == "NO") = true := by
  cases v with
  | none => simp [requireYesNo]
  | some t =>
      by_cases h : (t == "YES" || t == "NO") = true
      · simp [requireYesNo, h]
        intro he; subst he; simpa using h
      · simp [requireYesNo, h]
        intro he; subst he; simpa using h

/-- Any validated submission keeps the submitted `contact_number`, whose
length therefore passed the `min_length=7` check. -/
lemma validate_ok_contact (raw : RawPayload) (data : Submission)
    (h : validate raw = .ok data) :
    raw.contact_number = some data.contact_number ∧
      7 ≤ data.contact_number.length := by
  simp only [validate, bind_ok_iff, requireEmail_ok_iff, requireMin_ok_iff,
    requirePin_ok_iff, requireYesNo_ok_iff] at h
  obtain ⟨ep, ⟨hepv, hepe⟩, ci, ⟨hciv, hcil⟩, st, ⟨hstv, hstl⟩, di,
    ⟨hdiv, hdil⟩, nm, ⟨hnmv, hnml⟩, cn, ⟨hcnv, hcnl⟩, pi, ⟨hpiv, hpib⟩,
    de, ⟨hdev, hdel⟩, ac, ⟨hacv, hacl⟩, wa, ⟨hwav, hwab⟩, pq, ⟨hpqv, hpqb⟩,
    hpure⟩ := h
  simp only [show ∀ x : Submission,
      (pure x : Except String Submission) = Except.ok x from fun _ => rfl,
    Except.ok.injEq] at hpure
  subst hpure
  exact ⟨hcnv, hcnl⟩

/-- C5 counterexample: a 21-character `contact_number` (longer than the
claimed bound of 20) passes validation. -/
theorem contact_number_over_20_accepted :
    overlongContactRaw.contact_number = some "123456789012345678901"
    ∧ ("123456789012345678901" : String).length = 21
    ∧ (validate overlongContactRaw).isOk = true :=
  ⟨rfl, by decide, by rfl⟩

/-- C5 (amended): the validator accepts `contact_number` exactly when it
is present with length at least 7 — an accepted submission stores the
submitted value, of length at least 7; a value shorter than 7 or a
missing value is rejected; and among values of length at least 7 the
outcome does not depend on the value, so no upper bound applies. -/
theorem contact_number_validation :
    (∀ (raw : RawPayload) (data : Submission), validate raw = .ok data →
       raw.contact_number = some data.contact_number ∧
       7 ≤ data.contact_number.length)
    ∧ (∀ (raw : RawPayload) (s : String), raw.contact_number = some s →
       s.length < 7 → (validate raw).isOk = false)
    ∧ (∀ raw : RawPayload, raw.contact_number = none →
       (validate raw).isOk = false)
    ∧ (∀ (raw : RawPayload) (s t : String), 7 ≤ s.length → 7 ≤ t.length →
       (validate { raw with contact_number := some s }).isOk =
       (validate { raw with contact_number := some t }).isOk) := by
  refine ⟨validate_ok_contact, ?_, ?_, ?_⟩
  · intro raw s hs hlen
    cases hv : validate raw with
    | error e => rfl
    | ok data =>
        obtain ⟨hv2, hlen2⟩ := validate_ok_contact raw data hv
        rw [hs] at hv2
        injection hv2 with hv2
        rw [hv2] at hlen
        omega
  · intro raw hnone
    cases hv : validate raw with
    | error e => rfl
    | ok data =>
        obtain ⟨hv2, _⟩ := validate_ok_contact raw data hv
        rw [hnone] at hv2
        exact absurd hv2 (by simp)
  · intro raw s t hs ht
    rw [Bool.eq_iff_iff, except_isOk_iff, except_isOk_iff]
    simp only [validate, bind_ok_iff, map_ok_iff, requireEmail_ok_iff,
      requireMin_ok_iff, requirePin_ok_iff, requireYesNo_ok_iff,
      Option.some.injEq]
    constructor
    · rintro ⟨z, ep, hep, ci, hci, st, hst, di, hdi, nm, hnm, cn,
        ⟨hcns, hcnl⟩, pc, hpc, de, hde, ac, hac, wa, hwa, pq, hpq, hrec⟩
      exact ⟨_, ep, hep, ci, hci, st, hst, di, hdi, nm, hnm, t, ⟨rfl, ht⟩,
        pc, hpc, de, hde, ac, hac, wa, hwa, pq, hpq, rfl⟩
    · rintro ⟨z, ep, hep, ci, hci, st, hst, di, hdi, nm, hnm, cn,
        ⟨hcns, hcnl⟩, pc, hpc, de, hde, ac, hac, wa, hwa, pq, hpq, hrec⟩
      exact ⟨_, ep, hep, ci, hci, st, hst, di, hdi, nm, hnm, s, ⟨rfl, hs⟩,
        pc, hpc, de, hde, ac, hac, wa, hwa, pq, hpq, rfl⟩

/-- C5 witness: a 3-character `contact_number` is rejected. -/
theorem contact_number_validation_witness :
    shortContactRaw.contact_number = some "123"
    ∧ ("123" : String).length < 7
    ∧ (validate shortContactRaw).isOk = false :=
  ⟨rfl, by decide,
   contact_number_validation.2.1 shortContactRaw "123" rfl (by decide)⟩

/-- C6 counterexample: a payload whose `email_alt` is not a
syntactically valid email is accepted unchanged by the validator. -/
theorem email_alt_invalid_accepted :
    badAltRaw.email_alt = some "not-an-email"
    ∧ isEmail "not-an-email" = false
    ∧ (validate badAltRaw).isOk = true
    ∧ (validate badAltRaw).toOption.map Submission.email_alt =
        some (some "not-an-email") :=
  ⟨rfl, by decide, by rfl, by rfl⟩

/-- C6 (amended): the validator applies no constraint to `email_alt`:
the outcome of validation is independent of its value (any string or
null is accepted), and an accepted submission carries the value
through unchanged. -/
theorem email_alt_not_validated :
    (∀ (raw : RawPayload) (v : Option String),
       (validate { raw with email_alt := v }).isOk = (validate raw).isOk)
    ∧ (∀ (raw : RawPayload) (data : Submission), validate raw = .ok data →
       data.email_alt = raw.email_alt) := by
  constructor
  · intro raw v
    rw [Bool.eq_iff_iff, except_isOk_iff, except_isOk_iff]
    simp only [validate, bind_ok_iff, map_ok_iff, requireEmail_ok_iff,
      requireMin_ok_iff, requirePin_ok_iff, requireYesNo_ok_iff]
    constructor
    · rintro ⟨z, ep, hep, ci, hci, st, hst, di, hdi, nm, hnm, cn, hcn,
        pc, hpc, de, hde, ac, hac, wa, hwa, pq, hpq, hrec⟩
      exact ⟨_, ep, hep, ci, hci, st, hst, di, hdi, nm, hnm, cn, hcn,
        pc, hpc, de, hde, ac, hac, wa, hwa, pq, hpq, rfl⟩
    · rintro ⟨z, ep, hep, ci, hci, st, hst, di, hdi, nm, hnm, cn, hcn,
        pc, hpc, de, hde, ac, hac, wa, hwa, pq, hpq, hrec⟩
      exact ⟨_, ep, hep, ci, hci, st, hst, di, hdi, nm, hnm, cn, hcn,
        pc, hpc, de, hde, ac, hac, wa, hwa, pq, hpq, rfl⟩
  · intro raw data h
    simp only [validate, bind_ok_iff, map_ok_iff, requireEmail_ok_iff,
      requireMin_ok_iff, requirePin_ok_iff, requireYesNo_ok_iff] at h
    obtain ⟨ep, hep, ci, hci, st, hst, di, hdi, nm, hnm, cn, hcn,
      pc, hpc, de, hde, ac, hac, wa, hwa, pq, hpq, hrec⟩ := h
    simp only [show ∀ x : Submission,
        (pure x : Except String Submission) = Except.ok x from fun _ => rfl,
      Except.ok.injEq] at hrec
    subst hrec
    rfl

/-- C6 witness: validation carries the example `email_alt` through
unchanged. -/
theorem email_alt_not_validated_witness :
    validate exampleRaw = .ok exampleSub
    ∧ exampleSub.email_alt = exampleRaw.email_alt :=
  ⟨by rfl, email_alt_not_validated.2 exampleRaw exampleSub (by rfl)⟩

/-- C7: a `/debug` success returns at most 5 (hence at most the page
size 10 the spec allows) projected documents, and no returned document
carries the raw `_id` key (the projection excludes it). -/
theorem debug_bounded_no_id
    (coll : Collection) (count : Nat)
    (recent : List (List (String × String)))
    (h : debug (some coll) = .ok count recent) :
    recent.length ≤ 5 ∧ recent.length ≤ 10 ∧
      ∀ doc ∈ recent, ∀ p ∈ doc, p.fst ≠ "_id" := by
  unfold debug at h
  simp only [DebugResult.ok.injEq] at h
  obtain ⟨hc, hr⟩ := h
  subst hr
  have hlen : (((sortBySubmittedAtDesc coll.docs).take 5).map
      projectDoc).length ≤ 5 := by
    rw [List.length_map, List.length_take]
    omega
  refine ⟨hlen, le_trans hlen (by omega), ?_⟩
  intro doc hdoc p hp
  obtain ⟨d, hd, hdoc2⟩ := List.mem_map.mp hdoc
  subst hdoc2
  simp only [projectDoc, List.mem_cons, List.mem_singleton] at hp
  rcases hp with hp | hp | hp
  · subst hp
    show ("email_primary" : String) ≠ "_id"
    decide
  · subst hp
    show ("submittedAt" : String) ≠ "_id"
    decide
  · exact absurd hp (List.not_mem_nil p)

/-- C7 witness: with six stored documents, `/debug` returns exactly five
projected documents, none carrying `_id`. -/
theorem debug_bounded_no_id_witness :
    debug (some manyColl) =
      .ok 6 (((sortBySubmittedAtDesc manyColl.docs).take 5).map projectDoc)
    ∧ (((sortBySubmittedAtDesc manyColl.docs).take 5).map projectDoc).length
        = 5
    ∧ (((sortBySubmittedAtDesc manyColl.docs).take 5).map projectDoc).length
        ≤ 10
    ∧ ∀ doc ∈ ((sortBySubmittedAtDesc manyColl.docs).take 5).map projectDoc,
        ∀ p ∈ doc, p.fst ≠ "_id" :=
  ⟨by rfl, by rfl,
   (debug_bounded_no_id manyColl 6 _ (by rfl)).2.1,
   (debug_bounded_no_id manyColl 6 _ (by rfl)).2.2⟩

/-- C8 counterexample: when the probe raises, the `/health` response is
`{"status": "error", "mongo": <message>}`; it has no `ok` key at all, so
it never reports `ok:false`. -/
theorem health_error_no_ok_key :
    health ⟨"mongodb://db:27017", "appdb", "subs"⟩
        (.failure "connection refused") =
      [("status", "error"), ("mongo", "connection refused")]
    ∧ lookupKey (health ⟨"mongodb://db:27017", "appdb", "subs"⟩
        (.failure "connection refused")) "ok" = none :=
  ⟨by rfl, by rfl⟩

/-- C8 (amended): `/health` always returns a response carrying a
`status` key, for every configuration and probe outcome — the handler
catches every probe exception; when the store is configured and the
probe fails, the response reports `status: "error"` with the exception
text (not an `ok:false` field, which the response never contains). -/
theorem health_never_propagates :
    (∀ (cfg : Config) (probe : ProbeOutcome),
       (lookupKey (health cfg probe) "status").isSome = true)
    ∧ (∀ (cfg : Config) (msg : String),
       cfg.MONGO_URI.isEmpty = false → cfg.MONGO_DB.isEmpty = false →
       health cfg (.failure msg) = [("status", "error"), ("mongo", msg)]
       ∧ lookupKey (health cfg (.failure msg)) "ok" = none) := by
  constructor
  · intro cfg probe
    unfold health
    split
    · rfl
    · cases probe <;> rfl
  · intro cfg msg h1 h2
    have hcond : (cfg.MONGO_URI.isEmpty || cfg.MONGO_DB.isEmpty) = false := by
      simp [h1, h2]
    constructor
    · simp [health, hcond]
    · simp [health, hcond, lookupKey]

/-- C8 witness: a failing probe against a configured store yields the
`status: error` response without an `ok` key. -/
theorem health_never_propagates_witness :
    ("mongodb://db:27017" : String).isEmpty = false
    ∧ ("appdb" : String).isEmpty = false
    ∧ (health ⟨"mongodb://db:27017", "appdb", "subs"⟩
          (.failure "timed out") =
        [("status", "error"), ("mongo", "timed out")]
      ∧ lookupKey (health ⟨"mongodb://db:27017", "appdb", "subs"⟩
          (.failure "timed out")) "ok" = none) :=
  ⟨by rfl, by rfl,
   health_never_propagates.2 ⟨"mongodb://db:27017", "appdb", "subs"⟩
     "timed out" (by rfl) (by rfl)⟩

/-- C9 counterexample: with the connection string and database name
present but the collection name absent, `/health` does not report
"not-configured" — it probes and reports "connected" on success. -/
theorem health_ignores_missing_collection_name :
    health ⟨"mongodb://db:27017", "appdb", ""⟩ .success =
      [("status", "ok"), ("mongo", "connected")]
    ∧ lookupKey (health ⟨"mongodb://db:27017", "appdb", ""⟩ .success)
        "mongo" ≠ some "not-configured"
    ∧ ("" : String).isEmpty = true :=
  ⟨by rfl, by decide, by rfl⟩

/-- C9 (amended): `/health` degrades to "not-configured" when the
connection string or database name is absent (it does not consult the
collection name); absence of any of the three leaves the collection
handle uninitialized, so every `/submit` fails with 500 and every
`/debug` with 503. -/
theorem config_absence_fails_endpoints :
    (∀ (cfg : Config) (probe : ProbeOutcome),
       (cfg.MONGO_URI.isEmpty = true ∨ cfg.MONGO_DB.isEmpty = true) →
       health cfg probe = [("status", "ok"), ("mongo", "not-configured")])
    ∧ (∀ (cfg : Config) (store : Collection),
       (cfg.MONGO_URI.isEmpty = true ∨ cfg.MONGO_DB.isEmpty = true ∨
        cfg.MONGO_COLLECTION.isEmpty = true) →
       (∀ (now : String) (data : Submission),
          submit (on_startup cfg store) now data =
            (.error 500 "MongoDB connection is not fully configured.", none))
       ∧ debug (on_startup cfg store) = .error 503 "DB not initialized") := by
  constructor
  · intro cfg probe h
    unfold health
    rcases h with h | h <;> simp [h]
  · intro cfg store h
    have hn : on_startup cfg store = none := by
      unfold on_startup
      rcases h with h | h | h <;> simp [h]
    rw [hn]
    exact ⟨fun now data => rfl, rfl⟩

/-- C9 witness: an absent connection string degrades `/health`; an
absent collection name alone still makes `/submit` answer 500 and
`/debug` answer 503. -/
theorem config_absence_fails_endpoints_witness :
    ("" : String).isEmpty = true
    ∧ health ⟨"", "appdb", "subs"⟩ .success =
        [("status", "ok"), ("mongo", "not-configured")]
    ∧ submit (on_startup ⟨"mongodb://db:27017", "appdb", ""⟩ emptyColl)
        "2024-01-01T00:00:00" exampleSub =
        (.error 500 "MongoDB connection is not fully configured.", none)
    ∧ debug (on_startup ⟨"mongodb://db:27017", "appdb", ""⟩ emptyColl) =
        .error 503 "DB not initialized" :=
  ⟨by rfl,
   config_absence_fails_endpoints.1 ⟨"", "appdb", "subs"⟩ .success
     (Or.inl (by rfl)),
   (config_absence_fails_endpoints.2 ⟨"mongodb://db:27017", "appdb", ""⟩
     emptyColl (Or.inr (Or.inr (by rfl)))).1 "2024-01-01T00:00:00" exampleSub,
   (config_absence_fails_endpoints.2 ⟨"mongodb://db:27017", "appdb", ""⟩
     emptyColl (Or.inr (Or.inr (by rfl)))).2⟩

/-- Clause matching reads only the two normalized email fields. -/
lemma clauseMatches_eq_of_lower_eq (a b : StoredDoc)
    (h1 : a.email_primary_lower = b.email_primary_lower)
    (h2 : a.email_alt_lower = b.email_alt_lower) (cl : EmailClause) :
    clauseMatches a cl = clauseMatches b cl := by
  cases cl <;> simp [clauseMatches, h1, h2]

/-- Documents agreeing on the normalized email fields match the same
clause lists. -/
lemma any_clauses_congr (cls : List EmailClause) (a b : StoredDoc)
    (h1 : a.email_primary_lower = b.email_primary_lower)
    (h2 : a.email_alt_lower = b.email_alt_lower) :
    cls.any (clauseMatches a) = cls.any (clauseMatches b) := by
  induction cls with
  | nil => rfl
  | cons cl cls ih =>
      simp only [List.any_cons, ih,
        clauseMatches_eq_of_lower_eq a b h1 h2 cl]

/-- The duplicate query hit/miss depends only on the documents'
normalized email fields. -/
lemma find_lower_eq (L1 L2 : List StoredDoc) (cls : List EmailClause)
    (h : L1.map (fun d => (d.email_primary_lower, d.email_alt_lower)) =
         L2.map (fun d => (d.email_primary_lower, d.email_alt_lower))) :
    (L1.find? (fun d => cls.any (clauseMatches d))).isSome =
    (L2.find? (fun d => cls.any (clauseMatches d))).isSome := by
  induction L1 generalizing L2 with
  | nil =>
      cases L2 with
      | nil => rfl
      | cons b bs => simp at h
  | cons a as ih =>
      cases L2 with
      | nil => simp at h
      | cons b bs =>
          simp only [List.map_cons, List.cons.injEq, Prod.mk.injEq] at h
          obtain ⟨⟨hab1, hab2⟩, hrest⟩ := h
          have hcl := any_clauses_congr cls a b hab1 hab2
          cases hpa : cls.any (clauseMatches a) with
          | true =>
              have hpb : cls.any (clauseMatches b) = true := hcl ▸ hpa
              simp [List.find?, hpa, hpb]
          | false =>
              have hpb : cls.any (clauseMatches b) = false := hcl ▸ hpa
              simp only [List.find?, hpa, hpb]
              exact ih bs hrest

/-- C10: an accepted submission appends one document whose
`email_primary_lower` is the lowercased submitted primary email and
whose `email_alt_lower` is the lowercased alternate email when one is
present and non-empty, null otherwise; and the duplicate pre-check
consults only these derived fields — collections agreeing on them give
the same hit/miss outcome. -/
theorem inserted_doc_lower_fields :
    (∀ (c : Collection) (now : String) (raw : RawPayload) (id : Nat)
        (c2 : Collection),
       submitEndpoint (some c) now raw = (.ok id, some c2) →
       ∃ d, c2.docs = c.docs ++ [d] ∧
         d.email_primary_lower = lowerStr d.data.email_primary ∧
         (∀ s, d.data.email_alt = some s → s.data ≠ [] →
            d.email_alt_lower = some (lowerStr s)) ∧
         ((d.data.email_alt = none ∨ d.data.email_alt = some "") →
            d.email_alt_lower = none))
    ∧ (∀ (c c2 : Collection) (e1 : String) (e2 : Option String),
       c.docs.map (fun d => (d.email_primary_lower, d.email_alt_lower)) =
         c2.docs.map (fun d => (d.email_primary_lower, d.email_alt_lower)) →
       (findOne c (orClauses e1 e2)).isSome =
         (findOne c2 (orClauses e1 e2)).isSome) := by
  constructor
  · intro c now raw id c2 h
    unfold submitEndpoint at h
    split at h
    · exact absurd h (by simp)
    · rename_i dv hval
      unfold submit at h
      split at h
      · exact absurd h (by simp)
      · rename_i c1 hcc
        injection hcc with hcc
        subst hcc
        split at h
        · exact absurd h (by simp)
        · split at h
          · rename_i hins
            unfold insertOne at hins
            split at hins
            · exact absurd hins (by simp)
            · injection hins with hid hc2
              simp only [Prod.mk.injEq, SubmitResult.ok.injEq,
                Option.some.injEq] at h
              rw [← h.2, ← hc2]
              refine ⟨_, rfl, rfl, ?_, ?_⟩
              · intro s hs hne
                have hs2 : dv.email_alt = some s := hs
                simp [emailAltLower, hs2, hne]
              · intro hs
                have hs2 : dv.email_alt = none ∨ dv.email_alt = some "" := hs
                rcases hs2 with hs2 | hs2 <;> simp [emailAltLower, hs2]
          · exact absurd h (by simp)
  · intro c c2 e1 e2 h
    exact find_lower_eq c.docs c2.docs (orClauses e1 e2) h

/-- C10 witness: the accepted example submission stores
`email_primary_lower = "joe@example.com"` and a null `email_alt_lower`
(the example's `email_alt` is the empty default). -/
theorem inserted_doc_lower_fields_witness :
    submitEndpoint (some emptyColl) "2024-05-01T10:00:00" exampleRaw =
      (.ok 0, some insertedColl)
    ∧ (∃ d, insertedColl.docs = emptyColl.docs ++ [d] ∧
        d.email_primary_lower = lowerStr d.data.email_primary ∧
        (∀ s, d.data.email_alt = some s → s.data ≠ [] →
           d.email_alt_lower = some (lowerStr s)) ∧
        ((d.data.email_alt = none ∨ d.data.email_alt = some "") →
           d.email_alt_lower = none)) :=
  ⟨by rfl,
   inserted_doc_lower_fields.1 emptyColl "2024-05-01T10:00:00" exampleRaw 0
     insertedColl (by rfl)⟩

end FormBackend
